import Mathlib

/-!
Verification development for the tap-easyecom extractor.

The Python sources (tap_easyecom/client.py, tap_easyecom/auth.py) are shallowly
embedded below: JSON values become an inductive type, Python dictionaries become
association lists with Python dict insertion semantics, machine timestamps are
modelled as integers counting seconds, exceptions become Except / error codes,
and each method of the source is translated into an executable Lean function.
-/

set_option maxRecDepth 4000

namespace TapEasyEcom

/-- JSON values, as produced by response.json() in the Python source.
Numbers are modelled as integers; the properties verified here are
order-theoretic and never depend on fractional parts. -/
inductive Json where
  | null
  | str (s : String)
  | num (n : Int)
  | bool (b : Bool)
  | arr (xs : List Json)
  | obj (fields : List (String × Json))
deriving Repr

/-- First binding of a key in an association list, the lookup of a Python dict. -/
def lookupP {α : Type} : List (String × α) → String → Option α
  | [], _ => none
  | (k, v) :: rest, key => if k = key then some v else lookupP rest key

/-- Python truthiness of an optional JSON value: dict.get returns None for a
missing key, and None, empty string, zero, False, empty list and empty dict
are all falsy. -/
def pyTruthy : Option Json → Bool
  | none => false
  | some Json.null => false
  | some (Json.str s) => s ≠ ""
  | some (Json.num n) => n ≠ 0
  | some (Json.bool b) => b
  | some (Json.arr xs) => !xs.isEmpty
  | some (Json.obj fs) => !fs.isEmpty

/-- Whether a JSON value is an object: isinstance(v, dict) in the source. -/
def Json.isObj : Json → Bool
  | Json.obj _ => true
  | _ => false

/-- Field access on a JSON value known to be an object; on any other value the
result is none (the source only applies .get after an isinstance dict check or
to response.json() payloads, which are objects). -/
def Json.getField : Json → String → Option Json
  | Json.obj fs, k => lookupP fs k
  | _, _ => none

/-- Characters after the first occurrence of sep, or none when sep is
absent. -/
def afterFirst (sep : Char) : List Char → Option (List Char)
  | [] => none
  | c :: rest => if c = sep then some rest else afterFirst sep rest

/-- Split at every occurrence of sep, keeping empty pieces, as
str.split(sep) does. -/
def splitOnChar (sep : Char) : List Char → List (List Char)
  | [] => [[]]
  | c :: rest =>
    let r := splitOnChar sep rest
    if c = sep then [] :: r
    else
      match r with
      | [] => [[c]]
      | g :: gs => (c :: g) :: gs

/-- Query component of a URL as urlparse computes it: drop the fragment (the
part after the first number sign), then take the part after the first
question mark. -/
def urlQuery (url : String) : List Char :=
  let beforeFrag := url.toList.takeWhile (fun c => c ≠ '#')
  (afterFirst '?' beforeFrag).getD []

/-- Key-value pairs of a query string as parse_qs splits them: fields are
separated by ampersands, a field splits at its first equals sign, and fields
with no equals sign or an empty value are dropped (keep_blank_values is
false). Percent-decoding is not modelled; the cursors exchanged with the API
are opaque URL-safe tokens. -/
def parseQsl (qs : List Char) : List (String × String) :=
  (splitOnChar '&' qs).filterMap fun field =>
    match afterFirst '=' field with
    | none => none
    | some v =>
      if v.isEmpty then none
      else some (String.mk (field.takeWhile fun c => c ≠ '='), String.mk v)

/-- Append a value under a key, grouping as parse_qs does: the first occurrence
of a key fixes its position and later values are appended to its list. -/
def qsInsert (d : List (String × List String)) (k : String) (v : String) :
    List (String × List String) :=
  if (lookupP d k).isSome then
    d.map fun p => if p.1 = k then (p.1, p.2 ++ [v]) else p
  else d ++ [(k, [v])]

/-- Dictionary built by parse_qs: each key maps to the list of its values. -/
def parse_qs (qs : List Char) : List (String × List String) :=
  (parseQsl qs).foldl (fun d p => qsInsert d p.1 p.2) []

/-- Evaluation of parse_qs(urlparse(next_url).query)[cursor] from
get_next_page_token: the subscript raises KeyError when the URL has no cursor
query parameter. -/
def cursor_from_url (u : String) : Except String (List String) :=
  match lookupP (parse_qs (urlQuery u)) "cursor" with
  | some vs => Except.ok vs
  | none => Except.error "KeyError: cursor"

/-- EasyEcomStream.get_next_page_token (client.py lines 23-36). The response
body res is the parsed JSON object. Returns ok none when pagination ends,
ok (some token) with the parse_qs value list otherwise, and error when the
Python code would raise. -/
def get_next_page_token (res : List (String × Json)) :
    Except String (Option (List String)) :=
  let nu1 := lookupP res "nextUrl"
  let dataVal := (lookupP res "data").getD (Json.obj [])
  let nu :=
    if pyTruthy nu1 then nu1
    else if dataVal.isObj then dataVal.getField "nextUrl"
    else nu1
  if pyTruthy nu then
    match nu with
    | some (Json.str u) => (cursor_from_url u).map some
    | _ => Except.error "TypeError: urlparse expects a string"
  else Except.ok none

/-- Records selected by the jsonpath expression given by
records_jsonpath, which matches every element under the data field: the
elements of a list, the member values of an object, nothing for a scalar.
This is the behaviour of RESTStream.parse_response inherited from the SDK. -/
def extract_records (res : List (String × Json)) : List Json :=
  match lookupP res "data" with
  | some (Json.arr xs) => xs
  | some (Json.obj fs) => fs.map Prod.snd
  | _ => []

/-- EasyEcomStream.parse_response (client.py lines 105-116): a body whose data
field equals the literal string No Data Found yields no records; any other
body is handed to the inherited jsonpath extraction. The try block only logs
and re-raises, so no exception is swallowed or introduced here. -/
def parse_response (res : List (String × Json)) : Except String (List Json) :=
  match lookupP res "data" with
  | some (Json.str s) =>
    if s = "No Data Found" then Except.ok [] else Except.ok (extract_records res)
  | _ => Except.ok (extract_records res)

/-- Naive datetime as pendulum/datetime expose it to strftime: calendar fields,
compared lexicographically. The pendulum parse of the configured start date and
the bookmark timestamps are modelled directly as their parsed values. -/
structure PyDateTime where
  year : Nat
  month : Nat
  day : Nat
  hour : Nat
  minute : Nat
  second : Nat
deriving DecidableEq, Repr

/-- Strict chronological order on datetimes. -/
def PyDateTime.lt (a b : PyDateTime) : Bool :=
  if a.year ≠ b.year then a.year < b.year
  else if a.month ≠ b.month then a.month < b.month
  else if a.day ≠ b.day then a.day < b.day
  else if a.hour ≠ b.hour then a.hour < b.hour
  else if a.minute ≠ b.minute then a.minute < b.minute
  else a.second < b.second

/-- Later of two datetimes, as the Python builtin max computes it: the second
argument wins only when it is strictly greater. -/
def laterOf (a b : PyDateTime) : PyDateTime :=
  if PyDateTime.lt a b then b else a

/-- Zero-padded two-digit field. -/
def pad2 (n : Nat) : String :=
  if n < 10 then "0" ++ toString n else toString n

/-- Zero-padded four-digit year. -/
def pad4 (n : Nat) : String :=
  if n < 10 then "000" ++ toString n
  else if n < 100 then "00" ++ toString n
  else if n < 1000 then "0" ++ toString n
  else toString n

/-- strftime with the format used in get_url_params, yielding
YYYY-MM-DD HH:MM:SS. -/
def strftimeYmdHms (d : PyDateTime) : String :=
  pad4 d.year ++ "-" ++ pad2 d.month ++ "-" ++ pad2 d.day ++ " " ++
    pad2 d.hour ++ ":" ++ pad2 d.minute ++ ":" ++ pad2 d.second

/-- Starting replication value as the inherited get_starting_timestamp
resolves it: the bookmark persisted in state when one exists for the stream,
otherwise the configured start date. The SDK performs no comparison between
the two. -/
def get_starting_timestamp (bookmark startDate : Option PyDateTime) :
    Option PyDateTime :=
  bookmark <|> startDate

/-- EasyEcomStream.get_starting_time (client.py lines 55-60): parse the
configured start date when present, then return the SDK starting timestamp,
falling back to the parsed start date (datetimes are always truthy, so the
Python or-expression picks rep_key whenever it is not None). -/
def get_starting_time (startDate bookmark : Option PyDateTime) :
    Option PyDateTime :=
  let rep_key := get_starting_timestamp bookmark startDate
  rep_key <|> startDate

/-- Values stored in the request parameter dictionary built by
get_url_params: the cursor token is the value-list that parse_qs produced,
limit is an integer, the date filter is a formatted string. -/
inductive ParamVal where
  | s (v : String)
  | n (v : Nat)
  | strs (v : List String)
deriving DecidableEq, Repr

/-- Python dict insertion: an existing key keeps its position and gets the
new value, a new key is appended. -/
def pyDictSet {α : Type} : List (String × α) → String → α → List (String × α)
  | [], k, v => [(k, v)]
  | (k1, v1) :: rest, k, v =>
    if k1 = k then (k1, v) :: rest else (k1, v1) :: pyDictSet rest k v

/-- Python dict.update: insert every pair of the second dict in order. -/
def pyDictUpdate {α : Type} (d extra : List (String × α)) :
    List (String × α) :=
  extra.foldl (fun acc p => pyDictSet acc p.1 p.2) d

/-- Per-stream attributes that vary across the stream subclasses (which set
them as class attributes; hasattr checks become Option): the replication key,
the optional date filter parameter name and optional extra parameters. -/
structure StreamAttrs where
  replication_key : Option String
  date_filter_param : Option String
  additional_params : Option (List (String × ParamVal))

/-- Page size of every stream: the API maximum (client.py line 21). -/
def page_size : Nat := 10

/-- Truthiness of the optional replication key string. -/
def pyTruthyStr : Option String → Bool
  | none => false
  | some s => s ≠ ""

/-- Truthiness of the next page token: None is falsy and so is an empty
value list (which parse_qs in fact never produces). -/
def tokenTruthy : Option (List String) → Bool
  | none => false
  | some t => !t.isEmpty

/-- EasyEcomStream.get_url_params (client.py lines 62-76): build the request
parameter dictionary. The starting time is resolved through get_starting_time
from the configured start date and the stream bookmark; when the stream has a
replication key and the starting time is None, the strftime attribute access
raises, which the error result records. -/
def get_url_params (attrs : StreamAttrs) (startDate bookmark : Option PyDateTime)
    (next_page_token : Option (List String)) :
    Except String (List (String × ParamVal)) :=
  let params : List (String × ParamVal) := []
  let params :=
    if tokenTruthy next_page_token then
      pyDictSet params "cursor" (ParamVal.strs (next_page_token.getD []))
    else params
  let params :=
    if page_size ≠ 0 then pyDictSet params "limit" (ParamVal.n page_size)
    else params
  let params := pyDictUpdate params (attrs.additional_params.getD [])
  if pyTruthyStr attrs.replication_key then
    match get_starting_time startDate bookmark with
    | none => Except.error "AttributeError: NoneType has no attribute strftime"
    | some d =>
      let date_filter := attrs.date_filter_param.getD "updated_after"
      Except.ok (pyDictSet params date_filter (ParamVal.s (strftimeYmdHms d)))
  else Except.ok params

/-- Streams whose bookmark is collapsed before a state message is written
(client.py lines 84-86). -/
def collapse_streams : List String := ["gl_entries_dimensions"]

/-- Rewrite applied to one bookmarks entry by _write_state_message: a
designated stream whose bookmark has a truthy partitions member is replaced
by the empty-partitions dictionary; every other entry is kept as is. -/
def collapseEntry (p : String × List (String × Json)) :
    String × List (String × Json) :=
  if p.1 ∈ collapse_streams && pyTruthy (lookupP p.2 "partitions") then
    (p.1, [("partitions", Json.arr [])])
  else p

/-- EasyEcomStream._write_state_message (client.py lines 78-90): the bookmarks
mapping of the tap state (stream name to bookmark dictionary) as it is handed
to singer.write_message. The guard skips the rewrite loop when the bookmarks
mapping is empty (falsy), which leaves it unchanged either way. -/
def write_state_bookmarks (bookmarks : List (String × List (String × Json))) :
    List (String × List (String × Json)) :=
  if bookmarks.isEmpty then bookmarks
  else bookmarks.map collapseEntry

/-- Numeric value of a JSON scalar as Python arithmetic accepts it (booleans
are integers in Python); any other operand raises TypeError. -/
def pyNum : Json → Except String Int
  | Json.num n => Except.ok n
  | Json.bool b => Except.ok (if b then 1 else 0)
  | _ => Except.error "TypeError: unsupported operand"

/-- Rendering of a JSON scalar by str(), as interpolated into the bearer
header. Containers are abbreviated: the auth flow only ever interpolates the
stored jwt token, and every verified property constrains it to be a string. -/
def pyStr : Json → String
  | Json.null => "None"
  | Json.str s => s
  | Json.num n => toString n
  | Json.bool b => if b then "True" else "False"
  | Json.arr _ => "[...]"
  | Json.obj _ => "{...}"

/-- BearerTokenAuthenticator.is_token_valid (auth.py lines 97-113): false
without a truthy access_token, false without a truthy expires_in, otherwise
compare the current timestamp with created_at + expires_in - 300 (both read
with a default of 0). A non-numeric stored value would raise, which the error
result records. -/
def is_token_valid (cfg : List (String × Json)) (now : Int) :
    Except String Bool :=
  if !pyTruthy (lookupP cfg "access_token") then Except.ok false
  else if !pyTruthy (lookupP cfg "expires_in") then Except.ok false
  else do
    let created ← pyNum ((lookupP cfg "token_created_at").getD (Json.num 0))
    let ei ← pyNum ((lookupP cfg "expires_in").getD (Json.num 0))
    pure (decide (now < created + ei - 300))

/-- Outcome of the requests.post call made by update_access_token: a raised
transport exception, or an HTTP response with a status code and parsed JSON
body. -/
inductive AuthResponse where
  | transportError (msg : String)
  | http (status : Nat) (body : Json)

/-- Python dict.get with a default: raises AttributeError when the receiver
is not a dictionary. -/
def pyGetD (v : Json) (k : String) (dflt : Json) : Except String Json :=
  match v with
  | Json.obj fs => Except.ok ((lookupP fs k).getD dflt)
  | _ => Except.error "AttributeError: get on a non-dict"

/-- BearerTokenAuthenticator.update_access_token (auth.py lines 70-95).
Returns the tap config after the call together with the raised exception, if
any: a transport error or non-2xx status raises through the RequestException
handler, a body whose data.token.jwt_token chain is missing or falsy raises
ValueError, and only after that check do the three assignments to
access_token, expires_in (defaulting to 3600) and token_created_at run,
back to back with nothing in between that can raise. -/
def update_access_token (cfg : List (String × Json)) (resp : AuthResponse)
    (now : Int) : List (String × Json) × Option String :=
  match resp with
  | AuthResponse.transportError m => (cfg, some ("RequestException: " ++ m))
  | AuthResponse.http status body =>
    if 400 ≤ status then (cfg, some "RequestException: HTTPError")
    else
      match pyGetD body "data" (Json.obj []) with
      | Except.error e => (cfg, some e)
      | Except.ok dataV =>
        match dataV with
        | Json.obj _ =>
          match pyGetD dataV "token" (Json.obj []) with
          | Except.error e => (cfg, some e)
          | Except.ok tokenV =>
            match tokenV with
            | Json.obj tokenFields =>
              let jwt := lookupP tokenFields "jwt_token"
              if pyTruthy jwt then
                let cfg1 := pyDictSet cfg "access_token" (jwt.getD Json.null)
                let cfg2 := pyDictSet cfg1 "expires_in"
                  ((lookupP tokenFields "expires_in").getD (Json.num 3600))
                let cfg3 := pyDictSet cfg2 "token_created_at" (Json.num now)
                (cfg3, none)
              else (cfg, some "ValueError: No access token in response")
            | _ => (cfg, some "AttributeError: get on a non-dict")
        | _ => (cfg, some "AttributeError: get on a non-dict")

/-- BearerTokenAuthenticator.auth_headers (auth.py lines 27-45): refresh the
token when the stored one is invalid, then return the header dictionary (the
base class contributes an empty dictionary) with the Authorization entry
interpolating the stored access token. The result carries the header list,
the tap config after the call, and the number of network calls made. -/
def auth_headers (cfg : List (String × Json)) (now : Int)
    (resp : AuthResponse) :
    Except String (List (String × String) × List (String × Json) × Nat) :=
  match is_token_valid cfg now with
  | Except.error e => Except.error e
  | Except.ok true =>
    Except.ok
      ([("Authorization",
          "Bearer " ++ pyStr ((lookupP cfg "access_token").getD Json.null))],
        cfg, 0)
  | Except.ok false =>
    match update_access_token cfg resp now with
    | (_, some e) => Except.error e
    | (cfg2, none) =>
      Except.ok
        ([("Authorization",
            "Bearer " ++ pyStr ((lookupP cfg2 "access_token").getD Json.null))],
          cfg2, 1)

/-- Exceptions a request attempt can raise, after the classes named in the
backoff tuple of request_decorator (client.py lines 92-103) and the
non-retried kinds the error taxonomy distinguishes. -/
inductive Exc where
  | retriableAPIError (msg : String)
  | readTimeout
  | connectionError
  | fatalAPIError (msg : String)
  | authError (msg : String)
  | parseError (msg : String)
deriving DecidableEq, Repr

/-- Membership in the exception tuple passed to backoff.on_exception:
RetriableAPIError, requests ReadTimeout and requests ConnectionError. -/
def is_retriable : Exc → Bool
  | Exc.retriableAPIError _ => true
  | Exc.readTimeout => true
  | Exc.connectionError => true
  | _ => false

/-- Retry loop of backoff.on_exception as configured by request_decorator:
attempt numbers count the calls already made, fuel counts the retries still
allowed. A success returns immediately; an exception outside the tuple, or
any exception once the fuel is gone, is re-raised unchanged. The pair carries
the outcome and the total number of calls performed. -/
def backoffGo {α : Type} (f : Nat → Except Exc α) :
    Nat → Nat → Except Exc α × Nat
  | attempt, 0 =>
    match f attempt with
    | Except.ok a => (Except.ok a, attempt + 1)
    | Except.error e => (Except.error e, attempt + 1)
  | attempt, fuel + 1 =>
    match f attempt with
    | Except.ok a => (Except.ok a, attempt + 1)
    | Except.error e =>
      if is_retriable e then backoffGo f (attempt + 1) fuel
      else (Except.error e, attempt + 1)

/-- request_decorator (client.py lines 92-103): backoff.on_exception with
max_tries = 10, so one initial call plus at most nine retries. -/
def request_with_backoff {α : Type} (f : Nat → Except Exc α) :
    Except Exc α × Nat :=
  backoffGo f 0 9

theorem lookupP_pyDictSet_self {α : Type} (d : List (String × α)) (k : String)
    (v : α) : lookupP (pyDictSet d k v) k = some v := by
  induction d with
  | nil => simp [pyDictSet, lookupP]
  | cons hd tl ih =>
    obtain ⟨k1, v1⟩ := hd
    by_cases hk : k1 = k <;> simp [pyDictSet, lookupP, hk, ih]

theorem lookupP_pyDictSet_other {α : Type} (d : List (String × α))
    (k k2 : String) (v : α) (hne : k2 ≠ k) :
    lookupP (pyDictSet d k v) k2 = lookupP d k2 := by
  induction d with
  | nil => simp [pyDictSet, lookupP, Ne.symm hne]
  | cons hd tl ih =>
    obtain ⟨k1, v1⟩ := hd
    by_cases hk : k1 = k
    · subst hk
      simp [pyDictSet, lookupP, Ne.symm hne]
    · by_cases h2 : k1 = k2 <;>
        simp [pyDictSet, lookupP, hk, h2, ih, hne]

theorem lookupP_pyDictUpdate_other {α : Type} (k : String) :
    ∀ (extra d : List (String × α)), (∀ p ∈ extra, p.1 ≠ k) →
      lookupP (pyDictUpdate d extra) k = lookupP d k := by
  intro extra
  induction extra with
  | nil => intro d _; rfl
  | cons hd tl ih =>
    intro d hk
    have h1 : hd.1 ≠ k := hk hd (List.mem_cons_self hd tl)
    have h2 : ∀ p ∈ tl, p.1 ≠ k := fun p hp => hk p (List.mem_cons_of_mem hd hp)
    calc lookupP (pyDictUpdate (pyDictSet d hd.1 hd.2) tl) k
        = lookupP (pyDictSet d hd.1 hd.2) k := ih (pyDictSet d hd.1 hd.2) h2
      _ = lookupP d k := lookupP_pyDictSet_other d hd.1 k hd.2 fun h => h1 h.symm

/-- C2: for a stored credential with a truthy access token and a positive
expires_in, is_token_valid holds exactly when the current time is strictly
below token_created_at + expires_in - 300; at the boundary, 301 seconds
before expiry the token is reported valid and 299 seconds before expiry it is
reported invalid. -/
theorem token_validity_boundary (cfg : List (String × Json)) (now created ei : Int)
    (tok : Json)
    (htok : lookupP cfg "access_token" = some tok)
    (htokT : pyTruthy (some tok) = true)
    (hei : lookupP cfg "expires_in" = some (Json.num ei))
    (heipos : 0 < ei)
    (hcr : lookupP cfg "token_created_at" = some (Json.num created)) :
    (is_token_valid cfg now = Except.ok true ↔ now < created + ei - 300) ∧
    is_token_valid cfg (created + ei - 301) = Except.ok true ∧
    is_token_valid cfg (created + ei - 299) = Except.ok false := by
  have heiT : pyTruthy (some (Json.num ei)) = true := by
    simp [pyTruthy]; omega
  refine ⟨?_, ?_, ?_⟩ <;>
    simp [is_token_valid, htok, htokT, hei, hcr, heiT, pyNum,
      Bind.bind, Except.bind, pure, Except.pure]

theorem token_validity_boundary_witness :
    (is_token_valid
        [("access_token", Json.str "jwt"), ("expires_in", Json.num 3600),
          ("token_created_at", Json.num 1000)] 2000 = Except.ok true ↔
      (2000 : Int) < 1000 + 3600 - 300) ∧
    is_token_valid
        [("access_token", Json.str "jwt"), ("expires_in", Json.num 3600),
          ("token_created_at", Json.num 1000)] (1000 + 3600 - 301) =
      Except.ok true ∧
    is_token_valid
        [("access_token", Json.str "jwt"), ("expires_in", Json.num 3600),
          ("token_created_at", Json.num 1000)] (1000 + 3600 - 299) =
      Except.ok false :=
  token_validity_boundary
    [("access_token", Json.str "jwt"), ("expires_in", Json.num 3600),
      ("token_created_at", Json.num 1000)]
    2000 1000 3600 (Json.str "jwt") rfl (by decide) rfl (by decide) rfl

/-- C4: the body consisting exactly of a data field holding the literal
string No Data Found yields zero records without a parse error, and
get_next_page_token on that same body returns none, ending pagination; an
empty data list likewise yields zero records, so the sentinel is not a schema
violation. -/
theorem no_data_sentinel :
    parse_response [("data", Json.str "No Data Found")] = Except.ok [] ∧
    get_next_page_token [("data", Json.str "No Data Found")] = Except.ok none ∧
    parse_response [("data", Json.arr [])] = Except.ok [] :=
  ⟨rfl, rfl, rfl⟩

/-- C1 counterexample: a response whose top-level nextUrl field is present
but holds the empty string does not win over the nested data.nextUrl; the
nested URL decides the outcome (second conjunct: with the same top-level
field and no nested URL the result is none instead). -/
theorem cursor_precedence_counterexample :
    get_next_page_token
        [("nextUrl", Json.str ""),
          ("data",
            Json.obj
              [("nextUrl",
                Json.str "https://api.easyecom.io/orders?cursor=abc")])] =
      Except.ok (some ["abc"]) ∧
    get_next_page_token [("nextUrl", Json.str "")] = Except.ok none :=
  ⟨rfl, rfl⟩

/-- C1 amended: a top-level nextUrl holding a non-empty string wins over any
nested value and its cursor query parameter values become the token; when the
top-level field is absent or falsy and data is an object whose nextUrl is a
non-empty string, that nested URL is used the same way; when data is a list
and the top-level field is absent or falsy, pagination ends with none. -/
theorem cursor_precedence (res : List (String × Json)) :
    (∀ u, lookupP res "nextUrl" = some (Json.str u) → u ≠ "" →
      get_next_page_token res = (cursor_from_url u).map some) ∧
    (∀ fs u, pyTruthy (lookupP res "nextUrl") = false →
      lookupP res "data" = some (Json.obj fs) →
      lookupP fs "nextUrl" = some (Json.str u) → u ≠ "" →
      get_next_page_token res = (cursor_from_url u).map some) ∧
    (∀ xs, pyTruthy (lookupP res "nextUrl") = false →
      lookupP res "data" = some (Json.arr xs) →
      get_next_page_token res = Except.ok none) := by
  refine ⟨?_, ?_, ?_⟩
  · intro u hu hne
    have hT : pyTruthy (some (Json.str u)) = true := by simp [pyTruthy, hne]
    simp [get_next_page_token, hu, hT]
  · intro fs u hfalsy hdata hnested hne
    have hT : pyTruthy (some (Json.str u)) = true := by simp [pyTruthy, hne]
    simp [get_next_page_token, hfalsy, hdata, hnested, Json.isObj,
      Json.getField, hT]
  · intro xs hfalsy hdata
    simp [get_next_page_token, hfalsy, hdata, Json.isObj]

theorem cursor_precedence_witness :
    get_next_page_token
        [("nextUrl", Json.str "https://api.easyecom.io/orders?cursor=xyz"),
          ("data", Json.obj [("nextUrl", Json.str "https://other?cursor=nope")])] =
      (cursor_from_url "https://api.easyecom.io/orders?cursor=xyz").map some :=
  (cursor_precedence
      [("nextUrl", Json.str "https://api.easyecom.io/orders?cursor=xyz"),
        ("data", Json.obj [("nextUrl", Json.str "https://other?cursor=nope")])]).1
    "https://api.easyecom.io/orders?cursor=xyz" rfl (by decide)

/-- C5 counterexample: with a configured start date of 2024-01-02 and an
existing bookmark of 2024-01-01, the resolved starting value is the bookmark,
not the later of the two dates. -/
theorem starting_time_counterexample :
    get_starting_time (some ⟨2024, 1, 2, 0, 0, 0⟩) (some ⟨2024, 1, 1, 0, 0, 0⟩) =
      some ⟨2024, 1, 1, 0, 0, 0⟩ ∧
    laterOf ⟨2024, 1, 1, 0, 0, 0⟩ ⟨2024, 1, 2, 0, 0, 0⟩ = ⟨2024, 1, 2, 0, 0, 0⟩ ∧
    (⟨2024, 1, 1, 0, 0, 0⟩ : PyDateTime) ≠ ⟨2024, 1, 2, 0, 0, 0⟩ :=
  ⟨rfl, by decide, by decide⟩

/-- C5 amended: the starting replication value is the existing bookmark
whenever one is present, regardless of the configured start date; only
without a bookmark does the configured start date apply, and with neither the
result is none. This coincides with the later of the two exactly when the
bookmark is at least the start date. -/
theorem starting_time_resolution (sd bm : PyDateTime)
    (sdo : Option PyDateTime) :
    get_starting_time sdo (some bm) = some bm ∧
    get_starting_time (some sd) none = some sd ∧
    get_starting_time none none = (none : Option PyDateTime) := by
  refine ⟨?_, rfl, rfl⟩
  cases sdo <;> rfl

theorem backoffGo_nonretriable {α : Type} (f : Nat → Except Exc α)
    (fuel attempt : Nat) (e : Exc) (hf : f attempt = Except.error e)
    (hnr : is_retriable e = false) :
    backoffGo f attempt fuel = (Except.error e, attempt + 1) := by
  cases fuel <;> simp [backoffGo, hf, hnr]

theorem backoffGo_all_retriable {α : Type} (f : Nat → Except Exc α) :
    ∀ (fuel attempt : Nat),
      (∀ j, attempt ≤ j → j ≤ attempt + fuel →
        ∃ e, f j = Except.error e ∧ is_retriable e = true) →
      ∃ e, f (attempt + fuel) = Except.error e ∧
        backoffGo f attempt fuel = (Except.error e, attempt + fuel + 1) := by
  intro fuel
  induction fuel with
  | zero =>
    intro attempt h
    obtain ⟨e, he, hr⟩ := h attempt le_rfl (by omega)
    exact ⟨e, by simpa using he, by simp [backoffGo, he]⟩
  | succ n ih =>
    intro attempt h
    obtain ⟨e, he, hr⟩ := h attempt le_rfl (by omega)
    obtain ⟨e2, he2, hgo⟩ :=
      ih (attempt + 1) (fun j hj1 hj2 => h j (by omega) (by omega))
    have harith : attempt + 1 + n = attempt + (n + 1) := by omega
    rw [harith] at he2 hgo
    exact ⟨e2, he2, by simp [backoffGo, he, hr, hgo]⟩

theorem backoffGo_reach {α : Type} (f : Nat → Except Exc α) :
    ∀ (m attempt : Nat),
      (∀ j, attempt ≤ j → j < attempt + m →
        ∃ e, f j = Except.error e ∧ is_retriable e = true) →
      ∀ fuel, m ≤ fuel →
        backoffGo f attempt fuel = backoffGo f (attempt + m) (fuel - m) := by
  intro m
  induction m with
  | zero => intro attempt h fuel hm; simp
  | succ n ih =>
    intro attempt h fuel hm
    obtain ⟨e, he, hr⟩ := h attempt le_rfl (by omega)
    cases fuel with
    | zero => omega
    | succ fl =>
      have step : backoffGo f attempt (fl + 1) = backoffGo f (attempt + 1) fl := by
        simp [backoffGo, he, hr]
      rw [step]
      have hrec :=
        ih (attempt + 1) (fun j hj1 hj2 => h j (by omega) (by omega)) fl (by omega)
      have h1 : attempt + 1 + n = attempt + (n + 1) := by omega
      have h2 : fl - n = fl + 1 - (n + 1) := by omega
      rw [h1, h2] at hrec
      exact hrec

/-- C3: the retry wrapper retries only the exceptions of the configured
tuple (retriable API errors, read timeouts, connection errors): a request
raising any other exception, even after a run of retriable failures, is
re-raised immediately with no further attempts; and when every attempt
raises a retriable exception the wrapper stops after ten attempts in total
and re-raises the tenth exception unchanged. -/
theorem retry_policy {α : Type} (f : Nat → Except Exc α) :
    (∀ k e, k < 10 → f k = Except.error e → is_retriable e = false →
      (∀ j, j < k → ∃ e2, f j = Except.error e2 ∧ is_retriable e2 = true) →
      request_with_backoff f = (Except.error e, k + 1)) ∧
    ((∀ j, j < 10 → ∃ e2, f j = Except.error e2 ∧ is_retriable e2 = true) →
      ∃ e, f 9 = Except.error e ∧
        request_with_backoff f = (Except.error e, 10)) := by
  constructor
  · intro k e hk hf hnr hpre
    unfold request_with_backoff
    have hreach :=
      backoffGo_reach f k 0 (fun j _ hj2 => hpre j (by omega)) 9 (by omega)
    simp only [Nat.zero_add] at hreach
    rw [hreach]
    exact backoffGo_nonretriable f (9 - k) k e hf hnr
  · intro hall
    have hrun := backoffGo_all_retriable f 9 0 (fun j _ hj2 => hall j (by omega))
    simpa [request_with_backoff] using hrun

theorem retry_policy_witness :
    request_with_backoff
        (fun _ => (Except.error (Exc.authError "denied") : Except Exc Nat)) =
      (Except.error (Exc.authError "denied"), 1) :=
  (retry_policy fun _ => (Except.error (Exc.authError "denied") : Except Exc Nat)).1
    0 (Exc.authError "denied") (by decide) rfl rfl
    (fun j hj => absurd hj (by omega))

/-- C6: writing a state message rewrites the bookmark of every designated
stream whose partitions member is truthy (non-empty) to the empty-partitions
dictionary, and hands every other stream's bookmark to the sink unmodified. -/
theorem bookmark_collapse (bms : List (String × List (String × Json)))
    (n : String) (bm : List (String × Json)) (hmem : (n, bm) ∈ bms) :
    (n ∈ collapse_streams → pyTruthy (lookupP bm "partitions") = true →
      (n, [("partitions", Json.arr [])]) ∈ write_state_bookmarks bms) ∧
    (n ∉ collapse_streams → (n, bm) ∈ write_state_bookmarks bms) := by
  have hne : bms.isEmpty = false := by
    cases bms with
    | nil => cases hmem
    | cons a l => rfl
  constructor
  · intro hin htru
    have hentry : collapseEntry (n, bm) = (n, [("partitions", Json.arr [])]) := by
      simp [collapseEntry, hin, htru]
    have hmap : collapseEntry (n, bm) ∈ bms.map collapseEntry :=
      List.mem_map_of_mem collapseEntry hmem
    rw [hentry] at hmap
    simpa [write_state_bookmarks, hne] using hmap
  · intro hout
    have hentry : collapseEntry (n, bm) = (n, bm) := by
      simp [collapseEntry, hout]
    have hmap : collapseEntry (n, bm) ∈ bms.map collapseEntry :=
      List.mem_map_of_mem collapseEntry hmem
    rw [hentry] at hmap
    simpa [write_state_bookmarks, hne] using hmap

theorem bookmark_collapse_witness :
    ("gl_entries_dimensions", [("partitions", Json.arr [])]) ∈
      write_state_bookmarks
        [("gl_entries_dimensions", [("partitions", Json.arr [Json.str "p"])]),
          ("products", [("replication_key_value", Json.str "2024-01-01")])] :=
  (bookmark_collapse
      [("gl_entries_dimensions", [("partitions", Json.arr [Json.str "p"])]),
        ("products", [("replication_key_value", Json.str "2024-01-01")])]
      "gl_entries_dimensions" [("partitions", Json.arr [Json.str "p"])]
      (by simp)).1 (by simp [collapse_streams]) (by decide)

theorem update_access_token_cases (cfg : List (String × Json)) (now : Int)
    (resp : AuthResponse) :
    (update_access_token cfg resp now).1 = cfg ∨
    (update_access_token cfg resp now).2 = none := by
  cases resp with
  | transportError m => exact Or.inl rfl
  | http status body =>
    unfold update_access_token
    dsimp only
    by_cases h4 : 400 ≤ status
    · rw [if_pos h4]
      exact Or.inl rfl
    · rw [if_neg h4]
      cases body <;> try exact Or.inl rfl
      rename_i bodyFs
      simp only [pyGetD]
      cases hdv : (lookupP bodyFs "data").getD (Json.obj []) <;>
        try exact Or.inl rfl
      rename_i dataFs
      simp only [pyGetD]
      cases htv : (lookupP dataFs "token").getD (Json.obj []) <;>
        try exact Or.inl rfl
      rename_i tokenFs
      dsimp only
      by_cases hj : pyTruthy (lookupP tokenFs "jwt_token") = true
      · rw [if_pos hj]
        exact Or.inr rfl
      · rw [if_neg hj]
        exact Or.inl rfl

/-- C7: the stored credential triple is replaced only by a successful
authentication call and never partially updated: whenever update_access_token
raises (transport error, non-2xx status, or a body whose data.token.jwt_token
chain is missing or falsy, which raises instead of proceeding silently), the
tap config is exactly what it was before the call; on success all three of
access_token, expires_in (taken from the response token object or defaulting
to 3600) and token_created_at are written. -/
theorem credential_update_atomic (cfg : List (String × Json)) (now : Int) :
    (∀ resp e, (update_access_token cfg resp now).2 = some e →
      (update_access_token cfg resp now).1 = cfg) ∧
    (∀ status bodyFs dataFs tokenFs jwtVal, status < 400 →
      lookupP bodyFs "data" = some (Json.obj dataFs) →
      lookupP dataFs "token" = some (Json.obj tokenFs) →
      lookupP tokenFs "jwt_token" = some jwtVal →
      pyTruthy (some jwtVal) = true →
      (update_access_token cfg (AuthResponse.http status (Json.obj bodyFs))
            now).2 = none ∧
      lookupP
          (update_access_token cfg (AuthResponse.http status (Json.obj bodyFs))
            now).1 "access_token" = some jwtVal ∧
      lookupP
          (update_access_token cfg (AuthResponse.http status (Json.obj bodyFs))
            now).1 "expires_in" =
        some ((lookupP tokenFs "expires_in").getD (Json.num 3600)) ∧
      lookupP
          (update_access_token cfg (AuthResponse.http status (Json.obj bodyFs))
            now).1 "token_created_at" = some (Json.num now)) := by
  constructor
  · intro resp e h
    rcases update_access_token_cases cfg now resp with h1 | h1
    · exact h1
    · rw [h1] at h
      cases h
  · intro status bodyFs dataFs tokenFs jwtVal h4 hd ht hj hjT
    have h4n : ¬ 400 ≤ status := by omega
    have hred :
        update_access_token cfg (AuthResponse.http status (Json.obj bodyFs)) now =
          (pyDictSet
            (pyDictSet (pyDictSet cfg "access_token" jwtVal) "expires_in"
              ((lookupP tokenFs "expires_in").getD (Json.num 3600)))
            "token_created_at" (Json.num now), none) := by
      unfold update_access_token
      dsimp only
      rw [if_neg h4n]
      simp [pyGetD, hd, ht, hj, hjT]
    rw [hred]
    refine ⟨rfl, ?_, ?_, ?_⟩
    · rw [lookupP_pyDictSet_other _ _ _ _ (by decide),
        lookupP_pyDictSet_other _ _ _ _ (by decide),
        lookupP_pyDictSet_self]
    · rw [lookupP_pyDictSet_other _ _ _ _ (by decide),
        lookupP_pyDictSet_self]
    · rw [lookupP_pyDictSet_self]

theorem credential_update_atomic_witness :
    (update_access_token []
        (AuthResponse.http 200
          (Json.obj
            [("data",
              Json.obj
                [("token",
                  Json.obj
                    [("jwt_token", Json.str "J"),
                      ("expires_in", Json.num 7200)])])])) 42).2 = none ∧
    lookupP
        (update_access_token []
          (AuthResponse.http 200
            (Json.obj
              [("data",
                Json.obj
                  [("token",
                    Json.obj
                      [("jwt_token", Json.str "J"),
                        ("expires_in", Json.num 7200)])])])) 42).1
        "access_token" = some (Json.str "J") ∧
    lookupP
        (update_access_token []
          (AuthResponse.http 200
            (Json.obj
              [("data",
                Json.obj
                  [("token",
                    Json.obj
                      [("jwt_token", Json.str "J"),
                        ("expires_in", Json.num 7200)])])])) 42).1
        "expires_in" =
      some ((lookupP
        [("jwt_token", Json.str "J"), ("expires_in", Json.num 7200)]
        "expires_in").getD (Json.num 3600)) ∧
    lookupP
        (update_access_token []
          (AuthResponse.http 200
            (Json.obj
              [("data",
                Json.obj
                  [("token",
                    Json.obj
                      [("jwt_token", Json.str "J"),
                        ("expires_in", Json.num 7200)])])])) 42).1
        "token_created_at" = some (Json.num 42) :=
  (credential_update_atomic [] 42).2 200
    [("data",
      Json.obj
        [("token",
          Json.obj
            [("jwt_token", Json.str "J"), ("expires_in", Json.num 7200)])])]
    [("token",
      Json.obj [("jwt_token", Json.str "J"), ("expires_in", Json.num 7200)])]
    [("jwt_token", Json.str "J"), ("expires_in", Json.num 7200)]
    (Json.str "J") (by omega) rfl rfl rfl (by decide)

/-- C8: while the stored credential is still valid, requesting the auth
headers performs no refresh: the call returns the bearer header for the
stored token, leaves the config untouched and makes zero network calls, and
a repeated call (with any pending refresh outcome) returns the identical
result. -/
theorem auth_headers_idempotent (cfg : List (String × Json)) (now : Int)
    (resp resp2 : AuthResponse) (t : String)
    (hvalid : is_token_valid cfg now = Except.ok true)
    (htok : lookupP cfg "access_token" = some (Json.str t)) :
    auth_headers cfg now resp =
      Except.ok ([("Authorization", "Bearer " ++ t)], cfg, 0) ∧
    auth_headers cfg now resp2 =
      Except.ok ([("Authorization", "Bearer " ++ t)], cfg, 0) := by
  have h1 : ∀ r, auth_headers cfg now r =
      Except.ok ([("Authorization", "Bearer " ++ t)], cfg, 0) := by
    intro r
    simp [auth_headers, hvalid, htok, pyStr]
  exact ⟨h1 resp, h1 resp2⟩

theorem auth_headers_idempotent_witness :
    auth_headers
        [("access_token", Json.str "tok"), ("expires_in", Json.num 3600),
          ("token_created_at", Json.num 1000)] 1000
        (AuthResponse.transportError "unreachable") =
      Except.ok
        ([("Authorization", "Bearer " ++ "tok")],
          [("access_token", Json.str "tok"), ("expires_in", Json.num 3600),
            ("token_created_at", Json.num 1000)], 0) ∧
    auth_headers
        [("access_token", Json.str "tok"), ("expires_in", Json.num 3600),
          ("token_created_at", Json.num 1000)] 1000
        (AuthResponse.http 500 Json.null) =
      Except.ok
        ([("Authorization", "Bearer " ++ "tok")],
          [("access_token", Json.str "tok"), ("expires_in", Json.num 3600),
            ("token_created_at", Json.num 1000)], 0) :=
  auth_headers_idempotent
    [("access_token", Json.str "tok"), ("expires_in", Json.num 3600),
      ("token_created_at", Json.num 1000)] 1000
    (AuthResponse.transportError "unreachable") (AuthResponse.http 500 Json.null)
    "tok" rfl rfl

/-- C9: the parameter dictionary of every fetch carries limit fixed at the
page size 10; carries cursor exactly when a next page token is present (the
token value-lists produced by get_next_page_token are never empty); and, for
a stream with a replication key, carries a date filter parameter named by the
stream's date_filter_param or defaulting to updated_after, whose value is the
starting timestamp rendered as YYYY-MM-DD HH:MM:SS. The stated disjointness
hypotheses say the stream's extra parameters do not shadow the engine-owned
keys. -/
theorem url_params_shape (attrs : StreamAttrs) (sdo bmo : Option PyDateTime)
    (tok : Option (List String)) (d : PyDateTime)
    (ps : List (String × ParamVal))
    (hadd : ∀ p ∈ attrs.additional_params.getD [],
      p.1 ≠ "limit" ∧ p.1 ≠ "cursor")
    (hdf1 : attrs.date_filter_param.getD "updated_after" ≠ "limit")
    (hdf2 : attrs.date_filter_param.getD "updated_after" ≠ "cursor")
    (htokne : ∀ t, tok = some t → t ≠ [])
    (hstart : pyTruthyStr attrs.replication_key = true →
      get_starting_time sdo bmo = some d)
    (hres : get_url_params attrs sdo bmo tok = Except.ok ps) :
    lookupP ps "limit" = some (ParamVal.n 10) ∧
    (∀ t, tok = some t → lookupP ps "cursor" = some (ParamVal.strs t)) ∧
    (tok = none → lookupP ps "cursor" = none) ∧
    (pyTruthyStr attrs.replication_key = true →
      lookupP ps (attrs.date_filter_param.getD "updated_after") =
        some (ParamVal.s (strftimeYmdHms d))) := by
  have h10 : page_size ≠ 0 := by decide
  unfold get_url_params at hres
  dsimp only at hres
  rw [if_pos h10] at hres
  set p2 : List (String × ParamVal) :=
    if tokenTruthy tok = true then
      pyDictSet [] "cursor" (ParamVal.strs (tok.getD []))
    else [] with hp2
  set p4 : List (String × ParamVal) :=
    pyDictUpdate (pyDictSet p2 "limit" (ParamVal.n page_size))
      (attrs.additional_params.getD []) with hp4
  have hlim : lookupP p4 "limit" = some (ParamVal.n page_size) := by
    rw [hp4, lookupP_pyDictUpdate_other _ _ _ (fun p hp => (hadd p hp).1),
      lookupP_pyDictSet_self]
  have hcur1 : ∀ t, tok = some t → lookupP p4 "cursor" = some (ParamVal.strs t) := by
    intro t htok
    have htne := htokne t htok
    have htt : tokenTruthy tok = true := by
      rw [htok]
      cases t with
      | nil => exact absurd rfl htne
      | cons a l => rfl
    rw [hp4, lookupP_pyDictUpdate_other _ _ _ (fun p hp => (hadd p hp).2),
      lookupP_pyDictSet_other _ _ _ _ (by decide), hp2, if_pos htt, htok]
    rw [lookupP_pyDictSet_self]
    rfl
  have hcur2 : tok = none → lookupP p4 "cursor" = none := by
    intro htok
    have htf : tokenTruthy tok = false := by rw [htok]; rfl
    rw [hp4, lookupP_pyDictUpdate_other _ _ _ (fun p hp => (hadd p hp).2),
      lookupP_pyDictSet_other _ _ _ _ (by decide), hp2, if_neg (by rw [htf]; simp)]
    rfl
  by_cases hrep : pyTruthyStr attrs.replication_key = true
  · rw [if_pos hrep, hstart hrep] at hres
    rw [Except.ok.injEq] at hres
    subst hres
    refine ⟨?_, ?_, ?_, ?_⟩
    · rw [lookupP_pyDictSet_other _ _ _ _ (Ne.symm hdf1)]
      exact hlim
    · intro t htok
      rw [lookupP_pyDictSet_other _ _ _ _ (Ne.symm hdf2)]
      exact hcur1 t htok
    · intro htok
      rw [lookupP_pyDictSet_other _ _ _ _ (Ne.symm hdf2)]
      exact hcur2 htok
    · intro _
      exact lookupP_pyDictSet_self _ _ _
  · rw [if_neg hrep] at hres
    rw [Except.ok.injEq] at hres
    subst hres
    exact ⟨hlim, hcur1, hcur2, fun h => absurd h hrep⟩

theorem url_params_shape_witness :
    lookupP
        [("cursor", ParamVal.strs ["abc"]), ("limit", ParamVal.n 10),
          ("updated_after", ParamVal.s "2024-01-02 00:00:00")] "limit" =
      some (ParamVal.n 10) ∧
    (∀ t, some ["abc"] = some t →
      lookupP
          [("cursor", ParamVal.strs ["abc"]), ("limit", ParamVal.n 10),
            ("updated_after", ParamVal.s "2024-01-02 00:00:00")] "cursor" =
        some (ParamVal.strs t)) ∧
    (some ["abc"] = (none : Option (List String)) →
      lookupP
          [("cursor", ParamVal.strs ["abc"]), ("limit", ParamVal.n 10),
            ("updated_after", ParamVal.s "2024-01-02 00:00:00")] "cursor" =
        none) ∧
    (pyTruthyStr (StreamAttrs.mk (some "updated_at") none none).replication_key =
        true →
      lookupP
          [("cursor", ParamVal.strs ["abc"]), ("limit", ParamVal.n 10),
            ("updated_after", ParamVal.s "2024-01-02 00:00:00")]
          ((StreamAttrs.mk (some "updated_at") none none).date_filter_param.getD
            "updated_after") =
        some (ParamVal.s (strftimeYmdHms ⟨2024, 1, 2, 0, 0, 0⟩))) :=
  url_params_shape (StreamAttrs.mk (some "updated_at") none none)
    (some ⟨2024, 1, 2, 0, 0, 0⟩) none (some ["abc"]) ⟨2024, 1, 2, 0, 0, 0⟩
    [("cursor", ParamVal.strs ["abc"]), ("limit", ParamVal.n 10),
      ("updated_after", ParamVal.s "2024-01-02 00:00:00")]
    (by intro p hp; cases hp) (by decide) (by decide)
    (by intro t ht; cases ht; decide) (fun _ => rfl) rfl

/-- C10: for a stream with a replication key, when the configuration has no
start date and no bookmark exists, get_starting_time resolves to None and
get_url_params raises (attribute access strftime on None) instead of
returning a parameter dictionary. -/
theorem missing_window_raises (attrs : StreamAttrs)
    (tok : Option (List String))
    (hrep : pyTruthyStr attrs.replication_key = true) :
    get_starting_time none none = (none : Option PyDateTime) ∧
    get_url_params attrs none none tok =
      Except.error "AttributeError: NoneType has no attribute strftime" := by
  refine ⟨rfl, ?_⟩
  unfold get_url_params
  rw [if_pos hrep]
  rfl

theorem missing_window_raises_witness :
    get_starting_time none none = (none : Option PyDateTime) ∧
    get_url_params (StreamAttrs.mk (some "updated_at") none none) none none none =
      Except.error "AttributeError: NoneType has no attribute strftime" :=
  missing_window_raises (StreamAttrs.mk (some "updated_at") none none) none
    (by decide)

end TapEasyEcom
